/-
Verification of the training-orchestration driver of InnerEye-DeepLearning
(`InnerEye/ML/model_training.py`).

The Python module is sequential glue code around an external trainer:
it inspects and restores process environment variables, performs rank-zero-only
bookkeeping, uploads and aggregates per-rank CSV output files, configures
checkpoint callbacks, GPU count, accelerator and precision for the trainer, and
runs a background resource monitor.

We give a shallow embedding: the process environment is a finite map from
variable names to values, the filesystem contents that the aggregation step
reads are an oracle of the run, and every call into the external training
library (trainer creation, `trainer.fit`, uploads, downloads) is either
modelled by the data it receives or recorded as an event in a trace.
-/
import Mathlib

namespace InnerEyeML

/-! ## The process environment (`os.environ`) -/

/-- The process environment, a finite map from variable names to values,
as read and written through `os.environ` / `os.getenv`. -/
def Env : Type := String → Option String

/-- `os.environ.clear()`: afterwards no variable is set. -/
def environClear (_ : Env) : Env := fun _ => none

/-- `os.environ.update(d)`: every key of `d` is set to its value in `d`;
all other variables keep their previous value. -/
def environUpdate (env d : Env) : Env :=
  fun k => match d k with
    | some v => some v
    | none => env k

/-- Clearing the environment and then updating it with a saved copy restores
exactly that copy (`os.environ.clear(); os.environ.update(old_environ)`). -/
theorem environUpdate_environClear (e old : Env) :
    environUpdate (environClear e) old = old := by
  funext k
  unfold environUpdate environClear
  cases old k <;> rfl

/-- `is_rank_zero` (model_training.py, lines 40-51): guesses whether the
current process is DDP rank zero, before training has started, by looking at
the environment variables `GLOBAL_RANK`, `LOCAL_RANK` and `NODE_RANK`
(`os.getenv("NODE_RANK", "0")` defaults to `"0"`). -/
def is_rank_zero (env : Env) : Bool :=
  let global_rank := env "GLOBAL_RANK"
  let local_rank := env "LOCAL_RANK"
  let node_rank := (env "NODE_RANK").getD "0"
  global_rank.isNone && local_rank.isNone && (node_rank == "0")

/-! ## Paths and the temp-file upload helper -/

/-- A pure, already-parsed filesystem path: its components, in order
(the `parts` of a Python `pathlib` path). -/
structure PurePath where
  parts : List String
deriving DecidableEq

/-- Auxiliary for `relative_to`: when the first list of components leads the
second, the remaining components; otherwise failure. -/
def relParts : List String → List String → Option (List String)
  | [], rest => some rest
  | _ :: _, [] => none
  | a :: as, b :: bs => if a = b then relParts as bs else none

/-- `pathlib.PurePath.relative_to`: the path with the base's components
stripped from the front; raises `ValueError` (here: `none`) when the path does
not lie under the base. -/
def relative_to (p base : PurePath) : Option PurePath :=
  (relParts base.parts p.parts).map PurePath.mk

/-- `str()` of a path: components joined by the separator. -/
def pathStr (p : PurePath) : String :=
  String.intercalate "/" p.parts

/-- model_training.py, line 35. -/
def TEMP_PREFIX : String := "temp/"

/-- `upload_output_file_as_temp` (lines 54-62): uploads a file to the AzureML
run under a name composed of the `"temp/"` prefix plus the path of the file
relative to the outputs folder. The result is the `(name, path)` pair passed
to `RUN_CONTEXT.upload_file`, or `none` when `relative_to` raises. -/
def upload_output_file_as_temp (file_path outputs_folder : PurePath) :
    Option (String × String) :=
  match relative_to file_path outputs_folder with
  | some rel => some ( TEMP_PREFIX ++ pathStr rel, pathStr file_path)
  | none => none

/-! ## Text handling for the per-rank CSV aggregation -/

/-- Splitting a character list at every `'\n'`; `acc` holds the characters of
the current piece, in reverse. -/
def splitNewlineAux : List Char → List Char → List (List Char)
  | [], acc => [acc.reverse]
  | c :: cs, acc =>
    if c = '\n' then acc.reverse :: splitNewlineAux cs []
    else splitNewlineAux cs (c :: acc)

/-- `str.splitlines()` for text whose line terminator is `"\n"` (the module
reads its own CSV output files, written with Unix line endings): the list of
lines, without a trailing empty line when the text ends in a newline. -/
def splitlines (s : String) : List String :=
  let parts := (splitNewlineAux s.data []).map String.mk
  if parts.getLast? = some "" then parts.dropLast else parts

/-- `os.linesep` on the Linux hosts the training runs on. -/
def os_linesep : String := "\n"

/-- The aggregation loop body (lines 271-278): for each enumerated temp file,
`result_file.write_text` is called with the full contents for index 0 and with
the contents minus the header line otherwise. `write_text` truncates, so each
iteration replaces the previous contents; the accumulator is the contents of
the result file so far (`none`: not yet written). -/
def writeSubjectMetrics : List String → Nat → Option String → Option String
  | [], _, current => current
  | f :: rest, i, _ =>
    let written :=
      if i = 0 then f
      else String.intercalate os_linesep ((splitlines f).drop 1)
    writeSubjectMetrics rest (i + 1) (some written)

/-- The aggregation the spec describes, stated from its words for comparison
with `writeSubjectMetrics`: the final metrics file is the concatenation of all
per-rank files in enumeration order, keeping the header line of the first file
and dropping the header line of every subsequent file. -/
def spec_concatenate (files : List String) : Option String :=
  match files with
  | [] => none
  | first :: rest =>
    some (String.intercalate "\n"
      (splitlines first ++ (rest.map (fun f => (splitlines f).drop 1)).flatten))

/-! ## `create_lightning_trainer` -/

/-- Modelled from the spec: `RECOVERY_CHECKPOINT_FILE_NAME` is imported from
`InnerEye.ML.common`, which is not among the sources. The spec's external
interface lists periodic "recovery" checkpoints, and the source comments name
the files `recovery.ckpt` / `recovery-v0.ckpt`. -/
def RECOVERY_CHECKPOINT_FILE_NAME : String := "recovery"

/-- A `ModelCheckpoint` callback of the external training library, recorded by
the constructor arguments the driver passes (the fields not passed keep the
library defaults: no fixed filename, `save_last` off, saving every epoch). -/
structure ModelCheckpointM where
  dirpath : String
  filename : Option String
  save_last : Bool
  period : Int
deriving DecidableEq

/-- The trainer-relevant slice of the configuration object
(`TrainerParams` / `OutputParams` fields read in lines 95-151). -/
structure TrainerParamsM where
  checkpoint_folder : String
  recovery_checkpoint_save_interval : Int
  use_gpu : Bool
  max_num_gpus : Int
  use_mixed_precision : Bool
  pl_deterministic : Bool
  num_epochs : Nat
  pl_num_sanity_val_steps : Nat
  detect_anomaly : Bool
  outputs_folder : String
  logs_folder : String

/-- The `Trainer` of the external training library, recorded by the
constructor arguments the driver passes (lines 136-151). -/
structure TrainerM where
  default_root_dir : String
  deterministic : Bool
  benchmark : Bool
  accelerator : Option String
  max_epochs : Nat
  num_sanity_val_steps : Nat
  callbacks : List ModelCheckpointM
  progress_bar_refresh_rate : Nat
  num_nodes : Nat
  gpus : Int
  precision : Nat
  sync_batchnorm : Bool
  terminate_on_nan : Bool
  resume_from_checkpoint : Option String

/-- `create_lightning_trainer` (lines 76-152). `device_count` is the value of
`torch.cuda.device_count()` on the host; the loggers and the returned
`StoringLogger` carry no data the driver branches on and are omitted. -/
def create_lightning_trainer (config : TrainerParamsM) (device_count : Nat)
    (resume_from_checkpoint : Option String) (num_nodes : Nat) : TrainerM :=
  let best_checkpoint_callback : ModelCheckpointM :=
    { dirpath := config.checkpoint_folder
      filename := none
      save_last := true
      period := 1 }
  let recovery_checkpoint_callback : ModelCheckpointM :=
    { dirpath := config.checkpoint_folder
      filename := some RECOVERY_CHECKPOINT_FILE_NAME
      save_last := false
      period := config.recovery_checkpoint_save_interval }
  let num_gpus : Int := if config.use_gpu then (device_count : Int) else 0
  let num_gpus :=
    if 0 ≤ config.max_num_gpus ∧ config.max_num_gpus < num_gpus then
      config.max_num_gpus
    else num_gpus
  let accelerator : Option String := if num_gpus > 1 then some "ddp" else none
  let precision : Nat :=
    if num_gpus = 0 then 32 else if config.use_mixed_precision then 16 else 32
  let deterministic := if config.pl_deterministic then true else false
  let benchmark := if config.pl_deterministic then false else true
  { default_root_dir := config.outputs_folder
    deterministic := deterministic
    benchmark := benchmark
    accelerator := accelerator
    max_epochs := config.num_epochs
    num_sanity_val_steps := config.pl_num_sanity_val_steps
    callbacks := [best_checkpoint_callback, recovery_checkpoint_callback]
    progress_bar_refresh_rate := 0
    num_nodes := num_nodes
    gpus := num_gpus
    precision := precision
    sync_batchnorm := true
    terminate_on_nan := config.detect_anomaly
    resume_from_checkpoint := resume_from_checkpoint }

/-! ## `model_train` -/

/-- Modelled from the spec: `ModelExecutionMode` comes from
`InnerEye.ML.common`, which is not among the sources. The driver only uses the
`TRAIN` and `VAL` members and their string `value`. -/
inductive ModelExecutionMode where
  | train
  | val
deriving DecidableEq

/-- The string `value` of an execution mode, used as the per-mode output
subfolder name. -/
def ModelExecutionMode.value : ModelExecutionMode → String
  | .train => "Train"
  | .val => "Val"

/-- Modelled from the spec: `SUBJECT_METRICS_FILE_NAME` comes from
`InnerEye.Common.common_util`, not among the sources; the spec calls it the
final metrics file of per-subject outputs. -/
def SUBJECT_METRICS_FILE_NAME : String := "metrics.csv"

/-- Modelled from the spec: `SUBJECT_OUTPUT_PER_RANK_PREFIX` comes from
`InnerEye.ML.lightning_models`, not among the sources; the spec says
per-subject outputs are written to one CSV file per rank. -/
def SUBJECT_OUTPUT_PER_RANK_PREFIX : String := "subject_outputs_rank"

/-- Modelled from the spec: `get_subject_output_file_per_rank` comes from
`InnerEye.ML.lightning_models`, not among the sources; the name of the
per-rank subject-output CSV file of the given rank. -/
def get_subject_output_file_per_rank (rank : Nat) : String :=
  SUBJECT_OUTPUT_PER_RANK_PREFIX ++ toString rank ++ ".csv"

/-- The observable side effects of one `model_train` run, in program order. -/
inductive Event where
  /-- `write_args_file` (line 209). -/
  | writeArgsFile
  /-- `visualize_random_crops_for_dataset` (line 219). -/
  | visualizeRandomCrops
  /-- `generate_and_print_model_summary` (line 225). -/
  | modelSummary
  /-- `start_resource_monitor(config)` (line 228): a `ResourceMonitor` with
  `interval_seconds = config.monitoring_interval_seconds` is started. -/
  | startResourceMonitor (interval_seconds : Int)
  /-- `trainer.fit` (line 233). -/
  | fit
  /-- `upload_output_file_as_temp` of a per-rank subject-output CSV file
  (lines 241-242). -/
  | uploadTempOutputs (mode : ModelExecutionMode)
  /-- `RUN_CONTEXT.download_file(namedl, ...)` (line 266). -/
  | downloadFile (namedl : String)
  /-- `cleanup_checkpoint_folder` (line 251). -/
  | cleanupCheckpointFolder
  /-- `os.environ.clear(); os.environ.update(old_environ)` (lines 255-256). -/
  | restoreEnv
  /-- The `ModelTrainingResults` object is built (lines 280-286). -/
  | constructResults
  /-- `checkpoint_handler.additional_training_done()` (line 292). -/
  | additionalTrainingDone
  /-- `RUN_CONTEXT.upload_folder` of the visualization folder (line 297). -/
  | uploadVisualizationFolder
  /-- `resource_monitor.kill()` (line 305). -/
  | killResourceMonitor
deriving DecidableEq

/-- How one call of `model_train` ends. -/
inductive Outcome where
  /-- The function returns its `ModelTrainingResults`. -/
  | normal
  /-- `sys.exit()` on a non-zero-rank process (line 248). -/
  | sysExit
  /-- An exception of the external training library propagates out; exceptions
  are identified by a number. -/
  | raised (e : Nat)
deriving DecidableEq

/-- Everything outside `model_train` that determines a run: the configuration
flags the driver branches on, and the behaviour of the external training
library and filesystem during that run. -/
structure World where
  /-- `os.environ` when `model_train` is entered (copied into `old_environ`,
  line 194). -/
  initialEnv : Env
  /-- `os.environ` as the external training library leaves it: the library
  adds, removes and modifies variables during trainer setup and `fit`. -/
  envAfterFit : Env
  /-- `some e` when `trainer.fit` raises the exception identified by `e`. -/
  fitRaises : Option Nat
  /-- `getattr(trainer, "world_size", 0)` (line 236). -/
  worldSize : Nat
  /-- `not is_offline_run_context(RUN_CONTEXT)` (line 237). -/
  isAzureMLRun : Bool
  /-- `lightning_model.global_rank` after training (line 246). -/
  globalRank : Nat
  /-- `isinstance(lightning_model, ScalarLightning)`. -/
  isScalarLightning : Bool
  /-- `isinstance(config, DeepLearningConfig)` (line 295). -/
  isDeepLearningConfig : Bool
  /-- `isinstance(config, SegmentationModelBase)` (line 217). -/
  isSegmentationModelBase : Bool
  /-- `isinstance(config, ModelConfigBase)` (line 221). -/
  isModelConfigBase : Bool
  /-- `lightning_container.monitoring_interval_seconds` (line 227). -/
  containerMonitoringIntervalSeconds : Int
  /-- `config.monitoring_interval_seconds`, read by `start_resource_monitor`
  (line 164). -/
  configMonitoringIntervalSeconds : Int
  /-- `config.max_batch_grad_cam` (line 296). -/
  maxBatchGradCam : Int
  /-- `config.visualization_folder.exists()` (line 296). -/
  visualizationFolderExists : Bool
  /-- For each execution mode, the contents of the files that
  `(config.outputs_folder / mode.value).rglob(SUBJECT_OUTPUT_PER_RANK_PREFIX + "*")`
  yields at aggregation time (line 269), in enumeration order; on an AzureML
  multi-rank run this is the state after the downloads of line 266. -/
  tempFiles : ModelExecutionMode → List String

/-- The state a `model_train` run leaves behind: the process environment, the
trace of observable events in program order, and the contents of the final
per-mode subject metrics file (`none`: the run did not write it). -/
structure TrainState where
  env : Env
  events : List Event
  resultFile : ModelExecutionMode → Option String

/-- The rank-zero-only bookkeeping block of `model_train` (lines 206-228):
args file, patch visualization for segmentation models, model summary for
InnerEye models, and the resource monitor when the container's monitoring
interval is positive. -/
def bookkeepingEvents (w : World) : List Event :=
  if is_rank_zero w.initialEnv then
    [Event.writeArgsFile]
    ++ (if w.isSegmentationModelBase then [Event.visualizeRandomCrops] else [])
    ++ (if w.isModelConfigBase then [Event.modelSummary] else [])
    ++ (if 0 < w.containerMonitoringIntervalSeconds then
          [Event.startResourceMonitor w.configMonitoringIntervalSeconds]
        else [])
  else []

/-- The per-rank subject-output uploads of lines 240-242: on an AzureML run
with more than one rank, every rank uploads its train and validation CSV
files via `upload_output_file_as_temp`. -/
def uploadTempEvents (w : World) : List Event :=
  if w.isAzureMLRun = true ∧ 1 < w.worldSize ∧ w.isScalarLightning = true then
    [Event.uploadTempOutputs ModelExecutionMode.train,
     Event.uploadTempOutputs ModelExecutionMode.val]
  else []

/-- The downloads of lines 259-266: on an AzureML run with more than one rank,
rank 0 downloads the per-rank file of every rank and both modes from the
`temp/` names they were uploaded under. -/
def downloadEvents (w : World) : List Event :=
  if w.isAzureMLRun = true ∧ 1 < w.worldSize then
    ((List.range w.worldSize).map (fun rank =>
      [ModelExecutionMode.train, ModelExecutionMode.val].map (fun mode =>
        Event.downloadFile
          ( TEMP_PREFIX ++ (mode.value ++ "/" ++ get_subject_output_file_per_rank rank))))).flatten
  else []

/-- `model_train` (lines 171-307). The call sequence of the source is mirrored
step by step: capture `old_environ`; rank-zero bookkeeping; `trainer.fit`
(an exception there propagates, nothing later runs); per-rank uploads;
`sys.exit()` on non-zero global rank; checkpoint cleanup; environment
restoration; per-rank download and aggregation for scalar models; results
construction; visualization upload; resource-monitor shutdown. -/
def model_train (w : World) : Outcome × TrainState :=
  let old_environ := w.initialEnv
  let ev1 := bookkeepingEvents w ++ [Event.fit]
  match w.fitRaises with
  | some e =>
    (Outcome.raised e,
     { env := w.envAfterFit, events := ev1, resultFile := fun _ => none })
  | none =>
    let ev2 := ev1 ++ uploadTempEvents w
    if w.globalRank ≠ 0 then
      (Outcome.sysExit,
       { env := w.envAfterFit, events := ev2, resultFile := fun _ => none })
    else
      let ev3 := ev2 ++ [Event.cleanupCheckpointFolder, Event.restoreEnv]
      let env3 := environUpdate (environClear w.envAfterFit) old_environ
      let aggregate := w.worldSize ≠ 0 ∧ w.isScalarLightning = true
      let ev4 := ev3 ++ (if aggregate then downloadEvents w else [])
      let resultFile := fun mode =>
        if aggregate then writeSubjectMetrics (w.tempFiles mode) 0 none
        else none
      let ev5 := ev4 ++ [Event.constructResults, Event.additionalTrainingDone]
        ++ (if w.isDeepLearningConfig = true ∧ 0 < w.maxBatchGradCam
               ∧ w.visualizationFolderExists = true then
              [Event.uploadVisualizationFolder]
            else [])
        ++ (if is_rank_zero w.initialEnv = true
               ∧ 0 < w.containerMonitoringIntervalSeconds then
              [Event.killResourceMonitor]
            else [])
      (Outcome.normal, { env := env3, events := ev5, resultFile := resultFile })

/-! ## Branch lemmas: how each run of `model_train` ends -/

/-- When `trainer.fit` raises, `model_train` stops at line 233: the exception
propagates, the trace ends at `fit`, the environment stays as the library left
it, and no metrics file is written. -/
theorem model_train_eq_of_raised (w : World) (e : Nat) (h : w.fitRaises = some e) :
    model_train w =
      (Outcome.raised e,
       { env := w.envAfterFit,
         events := bookkeepingEvents w ++ [Event.fit],
         resultFile := fun _ => none }) := by
  unfold model_train
  rw [h]

/-- When training succeeds on a process whose global rank is not zero,
`model_train` calls `sys.exit()` right after the per-rank uploads. -/
theorem model_train_eq_of_exit (w : World) (h1 : w.fitRaises = none)
    (h2 : w.globalRank ≠ 0) :
    model_train w =
      (Outcome.sysExit,
       { env := w.envAfterFit,
         events := bookkeepingEvents w ++ [Event.fit] ++ uploadTempEvents w,
         resultFile := fun _ => none }) := by
  unfold model_train
  rw [h1]
  simp only [if_pos h2]

/-- The full trace of a run that returns normally. -/
def normalEvents (w : World) : List Event :=
  bookkeepingEvents w ++ [Event.fit] ++ uploadTempEvents w
    ++ [Event.cleanupCheckpointFolder, Event.restoreEnv]
    ++ (if w.worldSize ≠ 0 ∧ w.isScalarLightning = true then downloadEvents w
        else [])
    ++ [Event.constructResults, Event.additionalTrainingDone]
    ++ (if w.isDeepLearningConfig = true ∧ 0 < w.maxBatchGradCam
           ∧ w.visualizationFolderExists = true then
          [Event.uploadVisualizationFolder]
        else [])
    ++ (if is_rank_zero w.initialEnv = true
           ∧ 0 < w.containerMonitoringIntervalSeconds then
          [Event.killResourceMonitor]
        else [])

/-- When training succeeds on the rank-zero process, `model_train` runs to the
end: the environment is restored to the entry copy, and the metrics file is
written exactly for scalar models with a non-zero world size. -/
theorem model_train_eq_of_normal (w : World) (h1 : w.fitRaises = none)
    (h2 : w.globalRank = 0) :
    model_train w =
      (Outcome.normal,
       { env := w.initialEnv,
         events := normalEvents w,
         resultFile := fun mode =>
           if w.worldSize ≠ 0 ∧ w.isScalarLightning = true then
             writeSubjectMetrics (w.tempFiles mode) 0 none
           else none }) := by
  unfold model_train
  rw [h1]
  simp only [h2, ne_eq, not_true_eq_false, if_false, ite_false,
    environUpdate_environClear, normalEvents, List.append_assoc]

/-! ## Which events can occur where in the trace -/

/-- The events of the rank-zero-only bookkeeping block. -/
def Event.isBookkeeping : Event → Bool
  | .writeArgsFile => true
  | .visualizeRandomCrops => true
  | .modelSummary => true
  | .startResourceMonitor _ => true
  | _ => false

theorem isBookkeeping_false_of_mem_uploadTempEvents (w : World) (ev : Event)
    (h : ev ∈ uploadTempEvents w) : ev.isBookkeeping = false := by
  unfold uploadTempEvents at h
  split at h
  · simp only [List.mem_cons, List.not_mem_nil, or_false] at h
    rcases h with rfl | rfl <;> rfl
  · simp at h

theorem isBookkeeping_false_of_mem_downloadEvents (w : World) (ev : Event)
    (h : ev ∈ downloadEvents w) : ev.isBookkeeping = false := by
  unfold downloadEvents at h
  split at h
  · simp only [List.mem_flatten, List.mem_map] at h
    obtain ⟨l, ⟨rank, _, hl⟩, hev⟩ := h
    subst hl
    simp only [List.mem_map] at hev
    obtain ⟨mode, _, hev⟩ := hev
    subst hev
    rfl
  · simp at h

/-- Every bookkeeping-shaped event of a `model_train` trace comes from the
bookkeeping block. -/
theorem mem_bookkeeping_of_mem_events (w : World) (ev : Event)
    (hmem : ev ∈ (model_train w).2.events) (hbk : ev.isBookkeeping = true) :
    ev ∈ bookkeepingEvents w := by
  rcases hfit : w.fitRaises with _ | e
  · by_cases hr : w.globalRank = 0
    · rw [model_train_eq_of_normal w hfit hr] at hmem
      simp only [normalEvents, List.append_assoc, List.mem_append] at hmem
      rcases hmem with h | h | h | h | h | h | h
      · exact h
      · simp_all [Event.isBookkeeping]
      · exact absurd hbk (by simp [isBookkeeping_false_of_mem_uploadTempEvents w ev h])
      · simp only [List.mem_cons, List.not_mem_nil, or_false] at h
        rcases h with rfl | rfl <;> simp [Event.isBookkeeping] at hbk
      · split at h
        · exact absurd hbk (by simp [isBookkeeping_false_of_mem_downloadEvents w ev h])
        · simp at h
      · simp only [List.mem_cons, List.not_mem_nil, or_false] at h
        rcases h with rfl | rfl <;> simp [Event.isBookkeeping] at hbk
      · rcases h with h | h <;> split at h <;>
          simp only [List.mem_singleton, List.not_mem_nil] at h <;>
          first
          | exact absurd h (by simp)
          | (subst h; simp [Event.isBookkeeping] at hbk)
    · rw [model_train_eq_of_exit w hfit hr] at hmem
      simp only [List.append_assoc, List.mem_append] at hmem
      rcases hmem with h | h | h
      · exact h
      · simp only [List.mem_singleton] at h
        subst h
        simp [Event.isBookkeeping] at hbk
      · exact absurd hbk (by simp [isBookkeeping_false_of_mem_uploadTempEvents w ev h])
  · rw [model_train_eq_of_raised w e hfit] at hmem
    simp only [List.mem_append, List.mem_singleton] at hmem
    rcases hmem with h | h
    · exact h
    · subst h
      simp [Event.isBookkeeping] at hbk

/-- When the rank-zero guess fails, the bookkeeping block is skipped
entirely. -/
theorem bookkeepingEvents_eq_nil (w : World)
    (h : is_rank_zero w.initialEnv = false) : bookkeepingEvents w = [] := by
  simp [bookkeepingEvents, h]

/-- The resource-monitor start appears in the bookkeeping block exactly when
the process is rank zero and the container's monitoring interval is positive,
and it always carries the config's monitoring interval. -/
theorem startResourceMonitor_mem_bookkeeping (w : World) (i : Int) :
    Event.startResourceMonitor i ∈ bookkeepingEvents w ↔
      is_rank_zero w.initialEnv = true
        ∧ 0 < w.containerMonitoringIntervalSeconds
        ∧ i = w.configMonitoringIntervalSeconds := by
  unfold bookkeepingEvents
  split_ifs with h1 h2 h3 h4 <;> simp_all

/-- Every event of the bookkeeping block is bookkeeping-shaped. -/
theorem isBookkeeping_true_of_mem_bookkeepingEvents (w : World) (ev : Event)
    (h : ev ∈ bookkeepingEvents w) : ev.isBookkeeping = true := by
  unfold bookkeepingEvents at h
  split at h
  · simp only [List.mem_append] at h
    rcases h with ((h | h) | h) | h
    · simp only [List.mem_singleton] at h
      subst h
      rfl
    · split at h
      · simp only [List.mem_singleton] at h
        subst h
        rfl
      · simp at h
    · split at h
      · simp only [List.mem_singleton] at h
        subst h
        rfl
      · simp at h
    · split at h
      · simp only [List.mem_singleton] at h
        subst h
        rfl
      · simp at h
  · simp at h

/-- Every event of the bookkeeping block occurs in the trace, whichever way
the run ends. -/
theorem mem_events_of_mem_bookkeeping (w : World) (ev : Event)
    (h : ev ∈ bookkeepingEvents w) : ev ∈ (model_train w).2.events := by
  rcases hfit : w.fitRaises with _ | e
  · by_cases hr : w.globalRank = 0
    · rw [model_train_eq_of_normal w hfit hr]
      simp only [normalEvents, List.append_assoc, List.mem_append]
      exact Or.inl h
    · rw [model_train_eq_of_exit w hfit hr]
      simp only [List.append_assoc, List.mem_append]
      exact Or.inl h
  · rw [model_train_eq_of_raised w e hfit]
    simp only [List.mem_append]
    exact Or.inl h

/-! ## A reference run configuration used by the concrete witnesses -/

/-- A run on a single local process: rank zero, offline (no AzureML), world
size 1, an InnerEye config that is not a segmentation model, no monitoring,
and an empty environment. The witnesses below adjust individual fields. -/
def baseWorld : World where
  initialEnv := fun _ => none
  envAfterFit := fun _ => none
  fitRaises := none
  worldSize := 1
  isAzureMLRun := false
  globalRank := 0
  isScalarLightning := false
  isDeepLearningConfig := true
  isSegmentationModelBase := false
  isModelConfigBase := true
  containerMonitoringIntervalSeconds := 0
  configMonitoringIntervalSeconds := 0
  maxBatchGradCam := 0
  visualizationFolderExists := false
  tempFiles := fun _ => []

/-! ## The claims -/

/-- C7: for every uploaded per-rank output file, the name under which
`upload_output_file_as_temp` uploads it equals the string `"temp/"` followed
by the file's path relative to the outputs folder. -/
theorem upload_output_file_as_temp_name (file_path outputs_folder rel : PurePath)
    (h : relative_to file_path outputs_folder = some rel) :
    upload_output_file_as_temp file_path outputs_folder =
      some ("temp/" ++ pathStr rel, pathStr file_path) := by
  unfold upload_output_file_as_temp
  rw [h]
  rfl

/-- Witness for C7 at a concrete file below a concrete outputs folder. -/
theorem upload_output_file_as_temp_name_witness :
    relative_to ⟨["outputs", "Train", "file.csv"]⟩ ⟨["outputs"]⟩ =
        some ⟨["Train", "file.csv"]⟩ ∧
      upload_output_file_as_temp ⟨["outputs", "Train", "file.csv"]⟩ ⟨["outputs"]⟩ =
        some ("temp/" ++ pathStr ⟨["Train", "file.csv"]⟩,
          pathStr ⟨["outputs", "Train", "file.csv"]⟩) :=
  ⟨by decide, upload_output_file_as_temp_name ⟨["outputs", "Train", "file.csv"]⟩
    ⟨["outputs"]⟩ ⟨["Train", "file.csv"]⟩ (by decide)⟩

/-- C8: for every configuration, `create_lightning_trainer` registers exactly
two checkpoint callbacks on the trainer, both writing into the configuration's
checkpoint folder: one that saves the "last" checkpoint, and one that saves a
"recovery" checkpoint with period equal to the configuration's
`recovery_checkpoint_save_interval`. -/
theorem create_lightning_trainer_checkpoint_callbacks (config : TrainerParamsM)
    (device_count : Nat) (rc : Option String) (num_nodes : Nat) :
    (create_lightning_trainer config device_count rc num_nodes).callbacks.length = 2 ∧
    (∀ cb ∈ (create_lightning_trainer config device_count rc num_nodes).callbacks,
      cb.dirpath = config.checkpoint_folder) ∧
    (∃ cb ∈ (create_lightning_trainer config device_count rc num_nodes).callbacks,
      cb.save_last = true) ∧
    (∃ cb ∈ (create_lightning_trainer config device_count rc num_nodes).callbacks,
      cb.filename = some RECOVERY_CHECKPOINT_FILE_NAME ∧
        cb.period = config.recovery_checkpoint_save_interval) := by
  refine ⟨rfl, ?_, ?_, ?_⟩
  · intro cb hcb
    simp only [create_lightning_trainer, List.mem_cons, List.not_mem_nil,
      or_false] at hcb
    rcases hcb with rfl | rfl <;> rfl
  · exact ⟨⟨config.checkpoint_folder, none, true, 1⟩,
      by simp [create_lightning_trainer], rfl⟩
  · exact ⟨⟨config.checkpoint_folder, some RECOVERY_CHECKPOINT_FILE_NAME, false,
      config.recovery_checkpoint_save_interval⟩,
      by simp [create_lightning_trainer], rfl, rfl⟩

/-- C9: the precision `create_lightning_trainer` passes to the trainer is 32
whenever the effective number of GPUs is zero, and otherwise 16 if
`use_mixed_precision` is set and 32 if it is not; mixed precision is never
selected on a CPU-only run. -/
theorem create_lightning_trainer_precision (config : TrainerParamsM)
    (device_count : Nat) (rc : Option String) (num_nodes : Nat) :
    ((create_lightning_trainer config device_count rc num_nodes).precision =
      if (create_lightning_trainer config device_count rc num_nodes).gpus = 0 then 32
      else if config.use_mixed_precision then 16 else 32) ∧
    ¬((create_lightning_trainer config device_count rc num_nodes).gpus = 0 ∧
      (create_lightning_trainer config device_count rc num_nodes).precision = 16) := by
  have h1 : (create_lightning_trainer config device_count rc num_nodes).precision =
      if (create_lightning_trainer config device_count rc num_nodes).gpus = 0 then 32
      else if config.use_mixed_precision then 16 else 32 := rfl
  refine ⟨h1, ?_⟩
  rintro ⟨hg, hp⟩
  rw [hp, if_pos hg] at h1
  exact absurd h1 (by decide)

/-- C10: the effective number of GPUs equals the available device count (or
zero when `use_gpu` is off), capped at `max_num_gpus` whenever
`0 <= max_num_gpus < available`; and the accelerator passed to the trainer is
"ddp" exactly when the effective number of GPUs is greater than 1, and `None`
otherwise. -/
theorem create_lightning_trainer_gpus_accelerator (config : TrainerParamsM)
    (device_count : Nat) (rc : Option String) (num_nodes : Nat) :
    ((0 ≤ config.max_num_gpus ∧
        config.max_num_gpus < (if config.use_gpu then (device_count : Int) else 0)) →
      (create_lightning_trainer config device_count rc num_nodes).gpus =
        config.max_num_gpus) ∧
    (¬(0 ≤ config.max_num_gpus ∧
        config.max_num_gpus < (if config.use_gpu then (device_count : Int) else 0)) →
      (create_lightning_trainer config device_count rc num_nodes).gpus =
        (if config.use_gpu then (device_count : Int) else 0)) ∧
    ((create_lightning_trainer config device_count rc num_nodes).accelerator =
        some "ddp" ↔
      1 < (create_lightning_trainer config device_count rc num_nodes).gpus) := by
  refine ⟨fun h => ?_, fun h => ?_, ?_⟩
  · show (if 0 ≤ config.max_num_gpus ∧ config.max_num_gpus <
        (if config.use_gpu then (device_count : Int) else 0) then config.max_num_gpus
      else (if config.use_gpu then (device_count : Int) else 0)) = config.max_num_gpus
    rw [if_pos h]
  · show (if 0 ≤ config.max_num_gpus ∧ config.max_num_gpus <
        (if config.use_gpu then (device_count : Int) else 0) then config.max_num_gpus
      else (if config.use_gpu then (device_count : Int) else 0)) =
      (if config.use_gpu then (device_count : Int) else 0)
    rw [if_neg h]
  · show (if 1 < (create_lightning_trainer config device_count rc num_nodes).gpus
        then some "ddp" else none) = some "ddp" ↔
      1 < (create_lightning_trainer config device_count rc num_nodes).gpus
    split <;> rename_i hc <;> simp [hc]

/-- A DDP run of two ranks of a scalar model on a local box (no AzureML), seen
from the rank-zero process: the training subfolder holds one per-rank
subject-output CSV file per rank, each with a header line and one data row. -/
def wC1 : World :=
  { baseWorld with
    worldSize := 2
    isScalarLightning := true
    tempFiles := fun mode =>
      match mode with
      | .train => ["epoch,subject,prediction\n0,1,0.5",
                   "epoch,subject,prediction\n0,2,0.7"]
      | .val => [] }

/-- C1: the claim says the final metrics file holds the concatenation of all
per-rank files in enumeration order, keeping only the first header. The code
does not: each loop iteration calls `result_file.write_text`, which truncates,
so with two per-rank files the final file holds only the second file minus its
header — the first file's rows are lost, contradicting the loop's own comments
("Concatenate all temporary file per execution mode"). -/
theorem subject_metrics_concatenation_bug :
    (model_train wC1).2.resultFile ModelExecutionMode.train = some "0,2,0.7" ∧
    spec_concatenate (wC1.tempFiles ModelExecutionMode.train) =
      some "epoch,subject,prediction\n0,1,0.5\n0,2,0.7" ∧
    (model_train wC1).2.resultFile ModelExecutionMode.train ≠
      spec_concatenate (wC1.tempFiles ModelExecutionMode.train) := by
  refine ⟨?_, ?_, ?_⟩ <;> decide

/-- C2: for every run of `model_train` on the rank-zero process that completes
without an exception, the process environment at return is exactly the
environment captured at entry, whatever variables the training library added,
removed or modified in between (`w.envAfterFit` is arbitrary). -/
theorem model_train_restores_environment (w : World)
    (h1 : w.fitRaises = none) (h2 : w.globalRank = 0) :
    (model_train w).1 = Outcome.normal ∧
    (model_train w).2.env = w.initialEnv := by
  rw [model_train_eq_of_normal w h1 h2]
  exact ⟨rfl, rfl⟩

/-- A successful rank-zero run in which the training library both dropped the
entry environment and left a variable of its own behind. -/
def wC2 : World :=
  { baseWorld with
    initialEnv := fun k => if k = "HOME" then some "/root" else none
    envAfterFit := fun k => if k = "PL_GLOBAL_SEED" then some "42" else none }

/-- Witness for C2: a concrete run where the library replaced the environment
wholesale, and it is still restored at return. -/
theorem model_train_restores_environment_witness :
    (wC2.fitRaises = none ∧ wC2.globalRank = 0) ∧
      ((model_train wC2).1 = Outcome.normal ∧
        (model_train wC2).2.env = wC2.initialEnv) :=
  ⟨⟨rfl, rfl⟩, model_train_restores_environment wC2 rfl rfl⟩

/-- A run in which `trainer.fit` raises exception 7 while the training library
has already replaced the process environment. -/
def wC3 : World :=
  { baseWorld with
    fitRaises := some 7
    initialEnv := fun k => if k = "HOME" then some "/root" else none
    envAfterFit := fun _ => none }

/-- C3, counterexample: the claim says that when the training library raises,
environment restoration is still performed before the exception leaves
`model_train`. There is no `try/finally` around `trainer.fit`: at this run the
exception propagates but the environment is left as the library left it —
different from the entry environment — and no restore step runs. -/
theorem model_train_exception_skips_restore_cex :
    (model_train wC3).1 = Outcome.raised 7 ∧
    Event.restoreEnv ∉ (model_train wC3).2.events ∧
    (model_train wC3).2.env ≠ wC3.initialEnv := by
  refine ⟨rfl, by decide, ?_⟩
  intro hEq
  have h2 := congrFun hEq "HOME"
  rw [model_train_eq_of_raised wC3 7 rfl] at h2
  simp [wC3, baseWorld] at h2

/-- C3, amended: when the external training library raises an exception inside
`model_train`, the exception propagates unchanged to the caller (no retry, no
recovery), but environment restoration is NOT performed: the environment stays
exactly as the training library left it. -/
theorem model_train_exception_propagates (w : World) (e : Nat)
    (h : w.fitRaises = some e) :
    (model_train w).1 = Outcome.raised e ∧
    (model_train w).2.env = w.envAfterFit ∧
    Event.restoreEnv ∉ (model_train w).2.events := by
  rw [model_train_eq_of_raised w e h]
  refine ⟨rfl, rfl, ?_⟩
  intro hmem
  simp only [List.mem_append] at hmem
  rcases hmem with hx | hx
  · have hb := isBookkeeping_true_of_mem_bookkeepingEvents w _ hx
    simp [Event.isBookkeeping] at hb
  · simp at hx

/-- Witness for the amended C3 at the concrete failing run. -/
theorem model_train_exception_propagates_witness :
    wC3.fitRaises = some 7 ∧
      ((model_train wC3).1 = Outcome.raised 7 ∧
        (model_train wC3).2.env = wC3.envAfterFit ∧
        Event.restoreEnv ∉ (model_train wC3).2.events) :=
  ⟨rfl, model_train_exception_propagates wC3 7 rfl⟩

/-- C4: for every run in which the model's global rank after training is
non-zero, `model_train` exits right after training and the per-rank uploads,
and therefore never performs checkpoint-folder cleanup, environment
restoration, per-rank file concatenation, or the construction of
`ModelTrainingResults`. -/
theorem model_train_nonzero_rank_exits (w : World)
    (h1 : w.fitRaises = none) (h2 : w.globalRank ≠ 0) :
    (model_train w).1 = Outcome.sysExit ∧
    (model_train w).2.events =
      bookkeepingEvents w ++ [Event.fit] ++ uploadTempEvents w ∧
    Event.cleanupCheckpointFolder ∉ (model_train w).2.events ∧
    Event.restoreEnv ∉ (model_train w).2.events ∧
    Event.constructResults ∉ (model_train w).2.events ∧
    ∀ mode, (model_train w).2.resultFile mode = none := by
  rw [model_train_eq_of_exit w h1 h2]
  refine ⟨rfl, rfl, ?_, ?_, ?_, fun _ => rfl⟩ <;>
  · intro hmem
    simp only [List.append_assoc, List.mem_append] at hmem
    rcases hmem with hx | hx | hx
    · have hb := isBookkeeping_true_of_mem_bookkeepingEvents w _ hx
      simp [Event.isBookkeeping] at hb
    · simp at hx
    · unfold uploadTempEvents at hx
      split at hx <;> simp at hx

/-- A run whose global rank after training is 1. -/
def wC4 : World := { baseWorld with globalRank := 1 }

/-- Witness for C4 at a concrete rank-1 run. -/
theorem model_train_nonzero_rank_exits_witness :
    (wC4.fitRaises = none ∧ wC4.globalRank ≠ 0) ∧
      ((model_train wC4).1 = Outcome.sysExit ∧
        (model_train wC4).2.events =
          bookkeepingEvents wC4 ++ [Event.fit] ++ uploadTempEvents wC4 ∧
        Event.cleanupCheckpointFolder ∉ (model_train wC4).2.events ∧
        Event.restoreEnv ∉ (model_train wC4).2.events ∧
        Event.constructResults ∉ (model_train wC4).2.events ∧
        ∀ mode, (model_train wC4).2.resultFile mode = none) :=
  ⟨⟨rfl, by decide⟩, model_train_nonzero_rank_exits wC4 rfl (by decide)⟩

/-- C5: `is_rank_zero` returns true iff `GLOBAL_RANK` and `LOCAL_RANK` are
both unset and `NODE_RANK` is unset or `"0"`; and `model_train` performs its
bookkeeping steps — writing the args file, patch visualization, model summary,
starting the resource monitor — only when `is_rank_zero` holds of the entry
environment. -/
theorem is_rank_zero_spec_and_rank_zero_gating (env : Env) (w : World) :
    (is_rank_zero env = true ↔
      env "GLOBAL_RANK" = none ∧ env "LOCAL_RANK" = none ∧
        (env "NODE_RANK" = none ∨ env "NODE_RANK" = some "0")) ∧
    (∀ ev ∈ (model_train w).2.events,
      (ev = Event.writeArgsFile ∨ ev = Event.visualizeRandomCrops ∨
        ev = Event.modelSummary ∨ (∃ i, ev = Event.startResourceMonitor i)) →
      is_rank_zero w.initialEnv = true) := by
  constructor
  · simp only [is_rank_zero, Bool.and_eq_true, Option.isNone_iff_eq_none,
      beq_iff_eq]
    cases hn : env "NODE_RANK" <;> simp [Option.getD, and_assoc]
  · intro ev hmem hshape
    by_cases hrz : is_rank_zero w.initialEnv = true
    · exact hrz
    · have hf : is_rank_zero w.initialEnv = false := by
        cases hb : is_rank_zero w.initialEnv
        · rfl
        · exact absurd hb hrz
      have hbk : ev.isBookkeeping = true := by
        rcases hshape with rfl | rfl | rfl | ⟨i, rfl⟩ <;> rfl
      have hmem2 := mem_bookkeeping_of_mem_events w ev hmem hbk
      rw [bookkeepingEvents_eq_nil w hf] at hmem2
      simp at hmem2

/-- C6: a resource monitor is started by `model_train` exactly when the
process is rank zero and `monitoring_interval_seconds` is positive, every
started monitor samples at that fixed interval, and every started monitor is
killed before `model_train` returns normally. (The gate reads the interval
from the lightning container and the monitor from the config object; the
hypothesis states that the two hold the same value, as they do when the
container wraps the config.) -/
theorem resource_monitor_lifecycle (w : World)
    (h : w.configMonitoringIntervalSeconds = w.containerMonitoringIntervalSeconds) :
    ((∃ i, Event.startResourceMonitor i ∈ (model_train w).2.events) ↔
      is_rank_zero w.initialEnv = true ∧ 0 < w.configMonitoringIntervalSeconds) ∧
    (∀ i, Event.startResourceMonitor i ∈ (model_train w).2.events →
      i = w.configMonitoringIntervalSeconds) ∧
    ((model_train w).1 = Outcome.normal →
      (∃ i, Event.startResourceMonitor i ∈ (model_train w).2.events) →
      Event.killResourceMonitor ∈ (model_train w).2.events) := by
  refine ⟨⟨?_, ?_⟩, ?_, ?_⟩
  · rintro ⟨i, hmem⟩
    have hb := mem_bookkeeping_of_mem_events w _ hmem rfl
    rw [startResourceMonitor_mem_bookkeeping] at hb
    exact ⟨hb.1, by rw [h]; exact hb.2.1⟩
  · rintro ⟨hrz, hpos⟩
    refine ⟨w.configMonitoringIntervalSeconds, ?_⟩
    apply mem_events_of_mem_bookkeeping
    rw [startResourceMonitor_mem_bookkeeping]
    exact ⟨hrz, h ▸ hpos, rfl⟩
  · intro i hmem
    have hb := mem_bookkeeping_of_mem_events w _ hmem rfl
    rw [startResourceMonitor_mem_bookkeeping] at hb
    exact hb.2.2
  · intro hnorm
    rintro ⟨i, hmem⟩
    have hb := mem_bookkeeping_of_mem_events w _ hmem rfl
    rw [startResourceMonitor_mem_bookkeeping] at hb
    rcases hfit : w.fitRaises with _ | e
    · by_cases hr : w.globalRank = 0
      · rw [model_train_eq_of_normal w hfit hr]
        simp only [normalEvents, List.append_assoc, List.mem_append]
        iterate 7 apply Or.inr
        rw [if_pos ⟨hb.1, hb.2.1⟩]
        simp
      · rw [model_train_eq_of_exit w hfit hr] at hnorm
        exact absurd hnorm (by simp)
    · rw [model_train_eq_of_raised w e hfit] at hnorm
      exact absurd hnorm (by simp)

/-- A rank-zero run with a five-second monitoring interval on both the
container and the config. -/
def wC6 : World :=
  { baseWorld with
    containerMonitoringIntervalSeconds := 5
    configMonitoringIntervalSeconds := 5 }

/-- Witness for C6 at a concrete monitored run. -/
theorem resource_monitor_lifecycle_witness :
    wC6.configMonitoringIntervalSeconds = wC6.containerMonitoringIntervalSeconds ∧
      (((∃ i, Event.startResourceMonitor i ∈ (model_train wC6).2.events) ↔
          is_rank_zero wC6.initialEnv = true ∧
            0 < wC6.configMonitoringIntervalSeconds) ∧
        (∀ i, Event.startResourceMonitor i ∈ (model_train wC6).2.events →
          i = wC6.configMonitoringIntervalSeconds) ∧
        ((model_train wC6).1 = Outcome.normal →
          (∃ i, Event.startResourceMonitor i ∈ (model_train wC6).2.events) →
          Event.killResourceMonitor ∈ (model_train wC6).2.events)) :=
  ⟨rfl, resource_monitor_lifecycle wC6 rfl⟩

end InnerEyeML
